import Mathlib

/-!
Formal model of the Internal-final1113 frontend (a React single-page
dashboard for job-application automation).  Every definition below is a
shallow embedding of a concrete piece of the JavaScript source under
src/frontend/src and src/unnamed; the file/line of each origin is named in
the doc comment of the definition.  JavaScript numbers that the code only
ever uses as non-negative integer counters are modelled as Nat; the
pagination arithmetic, which subtracts, is modelled over Int.  String
template literals are modelled as lists of parts (literal text, the
component's backend-base expression, or a dynamic interpolation).
-/

namespace SpecModel

/-! ## String helpers (models of the JavaScript string operations used) -/

/-- Model of checking that a character list begins with another
(startsWithChars pre s is true when s begins with pre). -/
def startsWithChars : List Char → List Char → Bool
  | [], _ => true
  | _ :: _, [] => false
  | a :: as, b :: bs => a == b && startsWithChars as bs

/-- Model of the JavaScript String.includes on character lists: the needle
occurs contiguously in the haystack (the empty needle always occurs). -/
def containsChars : List Char → List Char → Bool
  | [], needle => needle.isEmpty
  | c :: t, needle => startsWithChars needle (c :: t) || containsChars t needle

/-- s begins with pre, on strings. -/
def strStartsWith (s pre : String) : Bool :=
  startsWithChars pre.data s.data

/-- Model of JavaScript hay.includes(sub). -/
def jsIncludes (hay sub : String) : Bool :=
  containsChars hay.data sub.data

/-- Model of JavaScript toLowerCase, restricted to the per-character
lowering that the ASCII data handled by this UI exercises. -/
def jsToLower (s : String) : String :=
  String.mk (s.data.map Char.toLower)

/-! ## JobsList pagination (src/frontend/src/components/JobsList.js)

The pagination useState starts at skip 0, limit 20 (lines 26-30); the jobs
fetch stores the reported total without touching skip.  nextPage
(lines 117-122) and prevPage (lines 124-127) are the only operations that
move skip. -/

/-- The pagination state of JobsList: skip, limit and total as stored in
the component useState (JobsList.js lines 26-30). -/
structure Pagination where
  skip : Int
  limit : Int
  total : Int
deriving DecidableEq

/-- nextPage (JobsList.js lines 117-122): computes newSkip as
skip + limit and moves only when newSkip is below total. -/
def Pagination.nextPage (p : Pagination) : Pagination :=
  let newSkip := p.skip + p.limit
  if newSkip < p.total then { p with skip := newSkip } else p

/-- prevPage (JobsList.js lines 124-127): sets skip to the maximum of 0
and skip minus limit. -/
def Pagination.prevPage (p : Pagination) : Pagination :=
  { p with skip := max 0 (p.skip - p.limit) }

/-- The two pagination operations the component wires to its buttons. -/
inductive PageOp where
  | next
  | prev
deriving DecidableEq

/-- One button press applied to the pagination state. -/
def applyPageOp (p : Pagination) : PageOp → Pagination
  | .next => p.nextPage
  | .prev => p.prevPage

/-- A sequence of Previous/Next presses applied left to right. -/
def applyPageOps (p : Pagination) (ops : List PageOp) : Pagination :=
  ops.foldl applyPageOp p

/-- The pagination state after the jobs fetch reported a total: skip 0 and
limit 20 are the useState initial values (JobsList.js lines 26-30); total
is data.total as stored by fetchJobs (line 49). -/
def initialPagination (total : Int) : Pagination :=
  { skip := 0, limit := 20, total := total }

/-! ## JobMatching filteredMatches (src/frontend/src/components/JobMatching.js)

filteredMatches (lines 303-319) filters the fetched matches by the
priority dropdown and the search box. -/

/-- The slice of a match's job_data that the filter reads; each field can
be absent in the JSON the API returns. -/
structure JobData where
  title : Option String
  company : Option String
  location : Option String
deriving DecidableEq

/-- A fetched match as the filter consumes it: its priority string and its
(possibly absent) job_data. -/
structure JobMatch where
  priority : String
  job_data : Option JobData
deriving DecidableEq

/-- The empty object that match.job_data is replaced with when absent
(JobMatching.js line 309: match.job_data with a fallback to the empty
object); every field read on it is undefined. -/
def emptyJobData : JobData :=
  { title := none, company := none, location := none }

/-- Model of the optional-chaining access field?.toLowerCase().includes(searchLower)
(JobMatching.js lines 312-314): an absent field yields undefined, which the
filter treats as false. -/
def optFieldIncludes (field : Option String) (searchLower : String) : Bool :=
  match field with
  | none => false
  | some s => jsIncludes (jsToLower s) searchLower

/-- The predicate body of filteredMatches (JobMatching.js lines 303-319):
reject when a specific priority is selected and differs; with a non-empty
search term return whether any of title, company, location contains the
lowered term; otherwise accept. -/
def matchPassesFilter (filter searchTerm : String) (m : JobMatch) : Bool :=
  if filter != "all" && m.priority != filter then false
  else if searchTerm != "" then
    let job := m.job_data.getD emptyJobData
    let searchLower := jsToLower searchTerm
    optFieldIncludes job.title searchLower ||
      optFieldIncludes job.company searchLower ||
      optFieldIncludes job.location searchLower
  else true

/-- filteredMatches (JobMatching.js line 303): matches.filter with the
predicate above. -/
def filteredMatches (filter searchTerm : String) (ms : List JobMatch) :
    List JobMatch :=
  ms.filter (matchPassesFilter filter searchTerm)

/-- The claim side of C9, written from its words: the field (reached
through job_data) is present and contains the search term
case-insensitively. -/
def ContainsCI (field : Option String) (term : String) : Prop :=
  ∃ s, field = some s ∧ jsIncludes (jsToLower s) (jsToLower term) = true

/-- The claim side of C9: the priority filter is "all" or matches, and the
search term is empty or one of the three job_data fields contains it
case-insensitively. -/
def MatchSelected (filter searchTerm : String) (m : JobMatch) : Prop :=
  (filter = "all" ∨ m.priority = filter) ∧
    (searchTerm = "" ∨
      ContainsCI (m.job_data.bind JobData.title) searchTerm ∨
      ContainsCI (m.job_data.bind JobData.company) searchTerm ∨
      ContainsCI (m.job_data.bind JobData.location) searchTerm)

/-! ## AutomationOrchestrator.formatNumber
(src/frontend/src/components/AutomationOrchestrator.js lines 117-121)

The function is applied to the statistics counters, all non-negative
integers (the stats useState initialises them to 0), so it is modelled
over Nat.  The JavaScript toFixed(1) is modelled as exact decimal rounding
to the nearest tenth, halves away from zero; the binary double that
JavaScript rounds can sit just below an exact decimal tie (1.15 stored as
a double is slightly below 1.15), so exact ties may print one tenth lower
there, a floating-point artefact outside this integer model. -/

/-- The number of tenths nearest to num divided by scale (halves rounded
up); this is the integer content of (num divided by scale).toFixed(1). -/
def nearestTenths (num scale : Nat) : Nat :=
  (num * 10 + scale / 2) / scale

/-- Model of (num divided by scale).toFixed(1): the one-decimal string of
the nearest tenth. -/
def toFixedOne (num scale : Nat) : String :=
  let t := nearestTenths num scale
  toString (t / 10) ++ "." ++ toString (t % 10)

/-- formatNumber (AutomationOrchestrator.js lines 117-121): millions with
an M suffix, thousands with a K suffix, otherwise the plain decimal
string. -/
def formatNumber (num : Nat) : String :=
  if num ≥ 1000000 then toFixedOne num 1000000 ++ "M"
  else if num ≥ 1000 then toFixedOne num 1000 ++ "K"
  else toString num

/-- What C10 claims for the million branch: the value printed before M is
num over one million rounded to one decimal, i.e. a tenths count t within
half a tenth of the exact quotient, printed as the one-decimal string. -/
def FormatsAsMillions (num : Nat) : Prop :=
  formatNumber num =
      toString (nearestTenths num 1000000 / 10) ++ "." ++
        toString (nearestTenths num 1000000 % 10) ++ "M" ∧
    2 * (nearestTenths num 1000000 * 1000000) ≤ 2 * (10 * num) + 1000000 ∧
    2 * (10 * num) ≤ 2 * (nearestTenths num 1000000 * 1000000) + 1000000

/-- What C10 claims for the thousand branch, with scale 1000. -/
def FormatsAsThousands (num : Nat) : Prop :=
  formatNumber num =
      toString (nearestTenths num 1000 / 10) ++ "." ++
        toString (nearestTenths num 1000 % 10) ++ "K" ∧
    2 * (nearestTenths num 1000 * 1000) ≤ 2 * (10 * num) + 1000 ∧
    2 * (10 * num) ≤ 2 * (nearestTenths num 1000 * 1000) + 1000

/-! ## HTTP requests issued by the components

Every fetch/axios call in the source is transcribed below as a request
template: the HTTP method plus the call's URL template literal, split at
its interpolation points.  A component's backend base expression is kept
symbolic so that a template is exactly the source's template. -/

/-- HTTP method of a fetch/axios call (fetch without options is GET; axios
method is the function called). -/
inductive Method where
  | GET
  | POST
  | DELETE
deriving DecidableEq

/-- The backend base expressions that appear in the source.
reactEnv is process.env.REACT_APP_BACKEND_URL (used directly or through a
module const BACKEND_URL); reactEnvOrLocalhost adds the JavaScript
or-fallback to the localhost:8001 literal (ResumeTailoring line 22,
CoverLetterManagement line 724 of src/unnamed/part_000);
viteOrReactOrLocalhost is the three-way fallback chain of
ApplicationSubmission.js line 35. -/
inductive BaseUrl where
  | reactEnv
  | reactEnvOrLocalhost
  | viteOrReactOrLocalhost
deriving DecidableEq

/-- One part of a URL template literal: literal text, the component's
backend base expression, or a dynamic interpolation (an id, an action, a
query-parameter string) named after the interpolated variable. -/
inductive UrlPart where
  | lit (s : String)
  | base (b : BaseUrl)
  | arg (varName : String)
deriving DecidableEq

/-- A URL template is the list of its parts, in order. -/
abbrev Url := List UrlPart

/-- The environment configuration a deployment supplies.  A JavaScript
template literal renders an undefined variable as the text undefined, and
the or-fallbacks substitute their default when the variable is unset. -/
structure Env where
  reactBackendUrl : Option String
  viteApiBaseUrl : Option String

/-- The string a base expression evaluates to under an environment. -/
def BaseUrl.resolve (e : Env) : BaseUrl → String
  | .reactEnv => e.reactBackendUrl.getD "undefined"
  | .reactEnvOrLocalhost => e.reactBackendUrl.getD "http://localhost:8001"
  | .viteOrReactOrLocalhost =>
      e.viteApiBaseUrl.getD (e.reactBackendUrl.getD "http://localhost:8001")

/-- The string one template part renders to, with dynamic interpolations
looked up in args. -/
def UrlPart.render (e : Env) (args : String → String) : UrlPart → String
  | .lit s => s
  | .base b => b.resolve e
  | .arg v => args v

/-- The full URL a template renders to. -/
def renderUrl (e : Env) (args : String → String) (u : Url) : String :=
  String.join (u.map (UrlPart.render e args))

/-- Merges adjacent literal parts, so that a template built from a module
const (such as API, which is the base followed by the literal /api) shows
its combined leading literal. -/
def normalizeUrl : Url → Url
  | [] => []
  | .lit s :: rest =>
      match normalizeUrl rest with
      | .lit t :: rest2 => .lit (s ++ t) :: rest2
      | r => .lit s :: r
  | p :: rest => p :: normalizeUrl rest

/-- A request template: method and URL template. -/
structure Request where
  method : Method
  url : Url
deriving DecidableEq

/-- A request targets the backend API in the sense of the spec: its URL is
the component's backend base expression immediately followed by literal
text that starts with the path /api/ (nothing precedes the base). -/
def requestTargetsApi (r : Request) : Bool :=
  match normalizeUrl r.url with
  | .base _ :: .lit s :: _ => strStartsWith s "/api/"
  | _ => false

/-- What a catch block (or a failure branch of the response check) does,
transcribed action kind by action kind. -/
inductive FailAction where
  | consoleError
  | consoleWarn
  | toastError
  | alertMsg
  | setStateOnly
  | rethrow
deriving DecidableEq

/-- One request handler of the frontend: an async function that issues one
or more requests.  requests are the templates the function itself issues
on its normal path (in order); catches records whether those are inside a
try/catch of the function (or a caller it always runs under);
catchActions transcribes its catch block, nonOkActions the branch taken
when the function inspects response.ok or a success flag and that check
fails (empty when there is no such branch or it is silent); catchRequests
lists any requests the catch block itself issues; onSuccessInvokes names
the same-component handler functions invoked after a successful response
(refreshes of other data). -/
structure Handler where
  component : String
  funName : String
  requests : List Request
  catches : Bool
  catchActions : List FailAction
  nonOkActions : List FailAction
  catchRequests : List Request
  onSuccessInvokes : List String
deriving DecidableEq

/-- The catch block writes the failure to the console. -/
def logsToConsole (h : Handler) : Bool :=
  h.catchActions.contains .consoleError || h.catchActions.contains .consoleWarn

/-- The catch block surfaces the failure to the user with a toast or an
alert dialog. -/
def surfacesToUser (h : Handler) : Bool :=
  h.catchActions.contains .toastError || h.catchActions.contains .alertMsg

/-- The module const API of JobMatching.js lines 25-26 (the same two-line
const pair appears in CandidateOnboarding.js 23-24, TestAI.js 15-16, the
Dashboard document of AutomationOrchestrator.js 360-361 and
src/unnamed/part_002 19-20): the backend base followed by /api. -/
def apiConst : Url :=
  [.base .reactEnv, .lit "/api"]

/-- Requests are pairwise distinct (no URL template is issued twice in one
list). -/
def allDistinct : List Request → Bool
  | [] => true
  | r :: rs => !(rs.contains r) && allDistinct rs

/-! ### The handler table

One entry per request-issuing async function of the source, in file
order.  The doc comment of each names its file and lines. -/

/-- JobScraping.js 27-40: GET scraping status; catch logs only; a false
success flag is silently ignored. -/
def jobScraping_fetchScrapingStatus : Handler :=
  { component := "JobScraping", funName := "fetchScrapingStatus"
    requests := [⟨.GET, [.base .reactEnv, .lit "/api/scraping/status"]⟩]
    catches := true, catchActions := [.consoleError], nonOkActions := []
    catchRequests := [], onSuccessInvokes := [] }

/-- JobScraping.js 42-66: POST manual scraping; catch logs and alerts; a
false success flag alerts; success alerts and refreshes the status. -/
def jobScraping_startManualScraping : Handler :=
  { component := "JobScraping", funName := "startManualScraping"
    requests := [⟨.POST, [.base .reactEnv, .lit "/api/scraping/start"]⟩]
    catches := true, catchActions := [.consoleError, .alertMsg]
    nonOkActions := [.alertMsg]
    catchRequests := [], onSuccessInvokes := ["fetchScrapingStatus"] }

/-- JobScraping.js 68-88: POST a scheduler action; catch logs and alerts;
a false success flag alerts; success alerts and refreshes the status. -/
def jobScraping_controlScheduler : Handler :=
  { component := "JobScraping", funName := "controlScheduler"
    requests := [⟨.POST, [.base .reactEnv, .lit "/api/scraping/scheduler/",
      .arg "action"]⟩]
    catches := true, catchActions := [.consoleError, .alertMsg]
    nonOkActions := [.alertMsg]
    catchRequests := [], onSuccessInvokes := ["fetchScrapingStatus"] }

/-- JobsList.js 32-58: GET raw jobs with pagination and filter params;
catch logs only; a false success flag is silently ignored. -/
def jobsList_fetchJobs : Handler :=
  { component := "JobsList", funName := "fetchJobs"
    requests := [⟨.GET, [.base .reactEnv, .lit "/api/jobs/raw?",
      .arg "params"]⟩]
    catches := true, catchActions := [.consoleError], nonOkActions := []
    catchRequests := [], onSuccessInvokes := [] }

/-- JobsList.js 60-70: GET job stats; catch logs only. -/
def jobsList_fetchStats : Handler :=
  { component := "JobsList", funName := "fetchStats"
    requests := [⟨.GET, [.base .reactEnv, .lit "/api/jobs/stats"]⟩]
    catches := true, catchActions := [.consoleError], nonOkActions := []
    catchRequests := [], onSuccessInvokes := [] }

/-- JobsList.js 72-94: GET job search; catch logs only. -/
def jobsList_searchJobs : Handler :=
  { component := "JobsList", funName := "searchJobs"
    requests := [⟨.GET, [.base .reactEnv, .lit "/api/jobs/search?query=",
      .arg "encodedQuery", .lit "&limit=", .arg "limit"]⟩]
    catches := true, catchActions := [.consoleError], nonOkActions := []
    catchRequests := [], onSuccessInvokes := [] }

/-- JobMatching.js 215-226: GET candidates; catch logs and toasts. -/
def jobMatching_fetchCandidates : Handler :=
  { component := "JobMatching", funName := "fetchCandidates"
    requests := [⟨.GET, apiConst ++ [.lit "/candidates"]⟩]
    catches := true, catchActions := [.consoleError, .toastError]
    nonOkActions := []
    catchRequests := [], onSuccessInvokes := [] }

/-- JobMatching.js 228-235: GET matching stats; catch logs only, with no
toast and no alert. -/
def jobMatching_fetchMatchingStats : Handler :=
  { component := "JobMatching", funName := "fetchMatchingStats"
    requests := [⟨.GET, apiConst ++ [.lit "/matching/stats"]⟩]
    catches := true, catchActions := [.consoleError], nonOkActions := []
    catchRequests := [], onSuccessInvokes := [] }

/-- JobMatching.js 237-251: GET a candidate's matches; catch logs, toasts
and clears the matches state. -/
def jobMatching_fetchCandidateMatches : Handler :=
  { component := "JobMatching", funName := "fetchCandidateMatches"
    requests := [⟨.GET, apiConst ++ [.lit "/candidates/", .arg "candidateId",
      .lit "/matches"]⟩]
    catches := true
    catchActions := [.consoleError, .toastError, .setStateOnly]
    nonOkActions := []
    catchRequests := [], onSuccessInvokes := [] }

/-- JobMatching.js 253-273: POST process-matches for the selected
candidate; catch logs and toasts; success refreshes matches and stats. -/
def jobMatching_processCandidateMatches : Handler :=
  { component := "JobMatching", funName := "processCandidateMatches"
    requests := [⟨.POST, apiConst ++ [.lit "/candidates/",
      .arg "selectedCandidate", .lit "/process-matches"]⟩]
    catches := true, catchActions := [.consoleError, .toastError]
    nonOkActions := []
    catchRequests := []
    onSuccessInvokes := ["fetchCandidateMatches", "fetchMatchingStats"] }

/-- JobMatching.js 275-293: POST process-all; catch logs and toasts;
success refreshes matches and stats. -/
def jobMatching_processAllCandidates : Handler :=
  { component := "JobMatching", funName := "processAllCandidates"
    requests := [⟨.POST, apiConst ++ [.lit "/matching/process-all"]⟩]
    catches := true, catchActions := [.consoleError, .toastError]
    nonOkActions := []
    catchRequests := []
    onSuccessInvokes := ["fetchCandidateMatches", "fetchMatchingStats"] }

/-- AutomationOrchestrator.js 21-31: GET automation status; catch logs
only; a non-ok response is silently ignored. -/
def automation_fetchSystemStatus : Handler :=
  { component := "AutomationOrchestrator", funName := "fetchSystemStatus"
    requests := [⟨.GET, [.base .reactEnv, .lit "/api/automation/status"]⟩]
    catches := true, catchActions := [.consoleError], nonOkActions := []
    catchRequests := [], onSuccessInvokes := [] }

/-- AutomationOrchestrator.js 33-43: GET automation stats; catch logs
only; a non-ok response is silently ignored. -/
def automation_fetchStats : Handler :=
  { component := "AutomationOrchestrator", funName := "fetchStats"
    requests := [⟨.GET, [.base .reactEnv, .lit "/api/automation/stats"]⟩]
    catches := true, catchActions := [.consoleError], nonOkActions := []
    catchRequests := [], onSuccessInvokes := [] }

/-- AutomationOrchestrator.js 58-81: POST automation start; catch logs and
toasts; a non-ok response toasts; success toasts and re-checks the status
after five seconds. -/
def automation_startAutonomousSystem : Handler :=
  { component := "AutomationOrchestrator", funName := "startAutonomousSystem"
    requests := [⟨.POST, [.base .reactEnv, .lit "/api/automation/start"]⟩]
    catches := true, catchActions := [.consoleError, .toastError]
    nonOkActions := [.toastError]
    catchRequests := [], onSuccessInvokes := ["fetchSystemStatus"] }

/-- AutomationOrchestrator.js 83-105: POST automation stop; catch logs and
toasts; a non-ok response toasts. -/
def automation_stopAutonomousSystem : Handler :=
  { component := "AutomationOrchestrator", funName := "stopAutonomousSystem"
    requests := [⟨.POST, [.base .reactEnv, .lit "/api/automation/stop"]⟩]
    catches := true, catchActions := [.consoleError, .toastError]
    nonOkActions := [.toastError]
    catchRequests := [], onSuccessInvokes := [] }

/-- Dashboard (AutomationOrchestrator.js second document) 447-509: GET
dashboard stats and scraping status inside the outer try, which also runs
the two guarded stats fetches below; the outer catch logs and toasts. -/
def dashboard_fetchDashboardData : Handler :=
  { component := "Dashboard", funName := "fetchDashboardData"
    requests := [⟨.GET, apiConst ++ [.lit "/dashboard/stats"]⟩,
      ⟨.GET, apiConst ++ [.lit "/scraping/status"]⟩]
    catches := true, catchActions := [.consoleError, .toastError]
    nonOkActions := []
    catchRequests := []
    onSuccessInvokes := ["fetchDashboardData.tailoringStats",
      "fetchDashboardData.coverLetterStats"] }

/-- Dashboard 462-469: the inner guarded GET of resume-tailoring stats;
its own catch writes a console warning only. -/
def dashboard_fetchTailoringStats : Handler :=
  { component := "Dashboard", funName := "fetchDashboardData.tailoringStats"
    requests := [⟨.GET, apiConst ++ [.lit "/resume-tailoring/stats"]⟩]
    catches := true, catchActions := [.consoleWarn], nonOkActions := []
    catchRequests := [], onSuccessInvokes := [] }

/-- Dashboard 480-487: the inner guarded GET of cover-letter stats; its
own catch writes a console warning only. -/
def dashboard_fetchCoverLetterStats : Handler :=
  { component := "Dashboard", funName := "fetchDashboardData.coverLetterStats"
    requests := [⟨.GET, apiConst ++ [.lit "/cover-letters/stats/overview"]⟩]
    catches := true, catchActions := [.consoleWarn], nonOkActions := []
    catchRequests := [], onSuccessInvokes := [] }

/-- Dashboard 511-519: GET health; catch logs and stores an unhealthy
status in state. -/
def dashboard_checkSystemHealth : Handler :=
  { component := "Dashboard", funName := "checkSystemHealth"
    requests := [⟨.GET, apiConst ++ [.lit "/health"]⟩]
    catches := true, catchActions := [.consoleError, .setStateOnly]
    nonOkActions := []
    catchRequests := [], onSuccessInvokes := [] }

/-- ApplicationSubmission.js 45-55: GET application status; catch logs
only. -/
def appSubmission_fetchApplicationStats : Handler :=
  { component := "ApplicationSubmission", funName := "fetchApplicationStats"
    requests := [⟨.GET, [.base .viteOrReactOrLocalhost,
      .lit "/api/applications/status"]⟩]
    catches := true, catchActions := [.consoleError], nonOkActions := []
    catchRequests := [], onSuccessInvokes := [] }

/-- ApplicationSubmission.js 57-67: GET application analytics; catch logs
only. -/
def appSubmission_fetchApplicationAnalytics : Handler :=
  { component := "ApplicationSubmission", funName := "fetchApplicationAnalytics"
    requests := [⟨.GET, [.base .viteOrReactOrLocalhost,
      .lit "/api/applications/analytics"]⟩]
    catches := true, catchActions := [.consoleError], nonOkActions := []
    catchRequests := [], onSuccessInvokes := [] }

/-- ApplicationSubmission.js 69-79: GET candidates; catch logs only. -/
def appSubmission_fetchCandidates : Handler :=
  { component := "ApplicationSubmission", funName := "fetchCandidates"
    requests := [⟨.GET, [.base .viteOrReactOrLocalhost,
      .lit "/api/candidates"]⟩]
    catches := true, catchActions := [.consoleError], nonOkActions := []
    catchRequests := [], onSuccessInvokes := [] }

/-- ApplicationSubmission.js 81-91: GET jobs with a limit; catch logs
only. -/
def appSubmission_fetchJobs : Handler :=
  { component := "ApplicationSubmission", funName := "fetchJobs"
    requests := [⟨.GET, [.base .viteOrReactOrLocalhost,
      .lit "/api/jobs?limit=100"]⟩]
    catches := true, catchActions := [.consoleError], nonOkActions := []
    catchRequests := [], onSuccessInvokes := [] }

/-- ApplicationSubmission.js 93-105: GET recent applications; catch logs
only. -/
def appSubmission_fetchRecentApplications : Handler :=
  { component := "ApplicationSubmission", funName := "fetchRecentApplications"
    requests := [⟨.GET, [.base .viteOrReactOrLocalhost,
      .lit "/api/applications/candidate/all?limit=50"]⟩]
    catches := true, catchActions := [.consoleError], nonOkActions := []
    catchRequests := [], onSuccessInvokes := [] }

/-- ApplicationSubmission.js 107-131: POST auto-submit; catch logs and
alerts; a false success flag alerts; success alerts and refreshes stats
and applications. -/
def appSubmission_handleAutoSubmit : Handler :=
  { component := "ApplicationSubmission", funName := "handleAutoSubmit"
    requests := [⟨.POST, [.base .viteOrReactOrLocalhost,
      .lit "/api/applications/auto-submit"]⟩]
    catches := true, catchActions := [.consoleError, .alertMsg]
    nonOkActions := [.alertMsg]
    catchRequests := []
    onSuccessInvokes := ["fetchApplicationStats", "fetchRecentApplications"] }

/-- ApplicationSubmission.js 133-171: POST submit-bulk once per selected
candidate (the for-of loop; its per-candidate multiplicity is modelled by
bulkSubmitPosts below); catch logs and alerts; a per-candidate false
success flag logs; after the loop it alerts and refreshes. -/
def appSubmission_handleBulkSubmit : Handler :=
  { component := "ApplicationSubmission", funName := "handleBulkSubmit"
    requests := [⟨.POST, [.base .viteOrReactOrLocalhost,
      .lit "/api/applications/submit-bulk"]⟩]
    catches := true, catchActions := [.consoleError, .alertMsg]
    nonOkActions := [.consoleError]
    catchRequests := []
    onSuccessInvokes := ["fetchApplicationStats", "fetchRecentApplications"] }

/-- ApplicationSubmission.js 173-195: POST test-submission; catch logs and
alerts; a false success flag alerts. -/
def appSubmission_handleTestSubmission : Handler :=
  { component := "ApplicationSubmission", funName := "handleTestSubmission"
    requests := [⟨.POST, [.base .viteOrReactOrLocalhost,
      .lit "/api/applications/test-submission"]⟩]
    catches := true, catchActions := [.consoleError, .alertMsg]
    nonOkActions := [.alertMsg]
    catchRequests := [], onSuccessInvokes := [] }

/-- CandidateOnboarding.js 104-128: POST the resume upload; catch logs,
toasts and rethrows to the caller (handleSubmit), whose catch absorbs
it. -/
def onboarding_uploadResume : Handler :=
  { component := "CandidateOnboarding", funName := "uploadResume"
    requests := [⟨.POST, apiConst ++ [.lit "/candidates/",
      .arg "candidateId", .lit "/resume/upload"]⟩]
    catches := true
    catchActions := [.consoleError, .toastError, .rethrow]
    nonOkActions := []
    catchRequests := [], onSuccessInvokes := [] }

/-- CandidateOnboarding.js 130-159: POST the new candidate, then upload
the resume when a file is staged; catch logs and toasts. -/
def onboarding_handleSubmit : Handler :=
  { component := "CandidateOnboarding", funName := "handleSubmit"
    requests := [⟨.POST, apiConst ++ [.lit "/candidates"]⟩]
    catches := true, catchActions := [.consoleError, .toastError]
    nonOkActions := []
    catchRequests := [], onSuccessInvokes := ["uploadResume"] }

/-- CandidateProfile (src/unnamed/part_002) 33-49: GET the candidate and
the candidate's resumes in parallel; catch logs, stores an error message
in state and toasts. -/
def candidateProfile_fetchCandidateData : Handler :=
  { component := "CandidateProfile", funName := "fetchCandidateData"
    requests := [⟨.GET, apiConst ++ [.lit "/candidates/", .arg "id"]⟩,
      ⟨.GET, apiConst ++ [.lit "/candidates/", .arg "id", .lit "/resumes"]⟩]
    catches := true
    catchActions := [.consoleError, .setStateOnly, .toastError]
    nonOkActions := []
    catchRequests := [], onSuccessInvokes := [] }

/-- TestAI.js 91-102: GET candidates; catch logs and toasts. -/
def testAI_fetchCandidates : Handler :=
  { component := "TestAI", funName := "fetchCandidates"
    requests := [⟨.GET, apiConst ++ [.lit "/candidates"]⟩]
    catches := true, catchActions := [.consoleError, .toastError]
    nonOkActions := []
    catchRequests := [], onSuccessInvokes := [] }

/-- TestAI.js 116-147: POST the matching test; catch logs, stores the
error text in state and toasts. -/
def testAI_testJobMatching : Handler :=
  { component := "TestAI", funName := "testJobMatching"
    requests := [⟨.POST, apiConst ++ [.lit "/matching/test"]⟩]
    catches := true
    catchActions := [.consoleError, .setStateOnly, .toastError]
    nonOkActions := []
    catchRequests := [], onSuccessInvokes := [] }

/-- TestAI.js 149-174: POST the cover-letter test; catch logs, stores the
error text in state and toasts. -/
def testAI_testCoverLetter : Handler :=
  { component := "TestAI", funName := "testCoverLetter"
    requests := [⟨.POST, apiConst ++ [.lit "/ai/test/cover-letter"]⟩]
    catches := true
    catchActions := [.consoleError, .setStateOnly, .toastError]
    nonOkActions := []
    catchRequests := [], onSuccessInvokes := [] }

/-- TestAI.js 176-191: GET health; catch logs, stores the error text in
state and toasts. -/
def testAI_checkSystemHealth : Handler :=
  { component := "TestAI", funName := "checkSystemHealth"
    requests := [⟨.GET, apiConst ++ [.lit "/health"]⟩]
    catches := true
    catchActions := [.consoleError, .setStateOnly, .toastError]
    nonOkActions := []
    catchRequests := [], onSuccessInvokes := [] }

/-- ResumeTailoring (src/unnamed/part_000) 36-47: GET candidates; catch
logs and toasts. -/
def resumeTailoring_fetchCandidates : Handler :=
  { component := "ResumeTailoring", funName := "fetchCandidates"
    requests := [⟨.GET, [.base .reactEnvOrLocalhost,
      .lit "/api/candidates"]⟩]
    catches := true, catchActions := [.consoleError, .toastError]
    nonOkActions := []
    catchRequests := [], onSuccessInvokes := [] }

/-- ResumeTailoring 49-60: GET jobs with a limit; catch logs and
toasts. -/
def resumeTailoring_fetchJobs : Handler :=
  { component := "ResumeTailoring", funName := "fetchJobs"
    requests := [⟨.GET, [.base .reactEnvOrLocalhost,
      .lit "/api/jobs?limit=50"]⟩]
    catches := true, catchActions := [.consoleError, .toastError]
    nonOkActions := []
    catchRequests := [], onSuccessInvokes := [] }

/-- ResumeTailoring 62-73: GET the selected candidate's resume versions;
catch logs and toasts. -/
def resumeTailoring_fetchResumeVersions : Handler :=
  { component := "ResumeTailoring", funName := "fetchResumeVersions"
    requests := [⟨.GET, [.base .reactEnvOrLocalhost, .lit "/api/candidates/",
      .arg "selectedCandidate", .lit "/resume-versions"]⟩]
    catches := true, catchActions := [.consoleError, .toastError]
    nonOkActions := []
    catchRequests := [], onSuccessInvokes := [] }

/-- ResumeTailoring 75-85: GET tailoring stats; catch logs only, with no
toast. -/
def resumeTailoring_fetchTailoringStats : Handler :=
  { component := "ResumeTailoring", funName := "fetchTailoringStats"
    requests := [⟨.GET, [.base .reactEnvOrLocalhost,
      .lit "/api/resume-tailoring/stats"]⟩]
    catches := true, catchActions := [.consoleError], nonOkActions := []
    catchRequests := [], onSuccessInvokes := [] }

/-- ResumeTailoring 87-98: GET a version's ATS analysis; catch logs and
toasts. -/
def resumeTailoring_fetchATSAnalysis : Handler :=
  { component := "ResumeTailoring", funName := "fetchATSAnalysis"
    requests := [⟨.GET, [.base .reactEnvOrLocalhost,
      .lit "/api/resume-versions/", .arg "versionId", .lit "/ats-analysis"]⟩]
    catches := true, catchActions := [.consoleError, .toastError]
    nonOkActions := []
    catchRequests := [], onSuccessInvokes := [] }

/-- ResumeTailoring 100-111: GET a version's performance metrics; catch
logs and toasts. -/
def resumeTailoring_fetchPerformanceMetrics : Handler :=
  { component := "ResumeTailoring", funName := "fetchPerformanceMetrics"
    requests := [⟨.GET, [.base .reactEnvOrLocalhost,
      .lit "/api/resume-versions/", .arg "versionId", .lit "/performance"]⟩]
    catches := true, catchActions := [.consoleError, .toastError]
    nonOkActions := []
    catchRequests := [], onSuccessInvokes := [] }

/-- ResumeTailoring 113-152: POST the tailoring run; catch logs and
toasts; a false success flag toasts; success toasts and refreshes
versions and stats. -/
def resumeTailoring_handleTailorResume : Handler :=
  { component := "ResumeTailoring", funName := "handleTailorResume"
    requests := [⟨.POST, [.base .reactEnvOrLocalhost, .lit "/api/resumes/",
      .arg "selectedResume", .lit "/tailor"]⟩]
    catches := true, catchActions := [.consoleError, .toastError]
    nonOkActions := [.toastError]
    catchRequests := []
    onSuccessInvokes := ["fetchResumeVersions", "fetchTailoringStats"] }

/-- ResumeTailoring 154-190: POST the variant generation; catch logs and
toasts; a false success flag toasts; success refreshes versions and
stats. -/
def resumeTailoring_handleGenerateVariants : Handler :=
  { component := "ResumeTailoring", funName := "handleGenerateVariants"
    requests := [⟨.POST, [.base .reactEnvOrLocalhost, .lit "/api/resumes/",
      .arg "selectedResume", .lit "/generate-variants"]⟩]
    catches := true, catchActions := [.consoleError, .toastError]
    nonOkActions := [.toastError]
    catchRequests := []
    onSuccessInvokes := ["fetchResumeVersions", "fetchTailoringStats"] }

/-- ResumeTailoring 192-223: POST the ATS scoring test; catch logs and
toasts; a false success flag toasts. -/
def resumeTailoring_handleTestATSScoring : Handler :=
  { component := "ResumeTailoring", funName := "handleTestATSScoring"
    requests := [⟨.POST, [.base .reactEnvOrLocalhost,
      .lit "/api/resumes/test-ats-scoring"]⟩]
    catches := true, catchActions := [.consoleError, .toastError]
    nonOkActions := [.toastError]
    catchRequests := [], onSuccessInvokes := [] }

/-- CoverLetterManagement (src/unnamed/part_000) 738-748: GET candidates;
catch logs only. -/
def coverLetters_fetchCandidates : Handler :=
  { component := "CoverLetterManagement", funName := "fetchCandidates"
    requests := [⟨.GET, [.base .reactEnvOrLocalhost,
      .lit "/api/candidates"]⟩]
    catches := true, catchActions := [.consoleError], nonOkActions := []
    catchRequests := [], onSuccessInvokes := [] }

/-- CoverLetterManagement 750-760: GET filtered jobs; catch logs only. -/
def coverLetters_fetchRecentJobs : Handler :=
  { component := "CoverLetterManagement", funName := "fetchRecentJobs"
    requests := [⟨.GET, [.base .reactEnvOrLocalhost,
      .lit "/api/jobs/filtered?limit=50"]⟩]
    catches := true, catchActions := [.consoleError], nonOkActions := []
    catchRequests := [], onSuccessInvokes := [] }

/-- CoverLetterManagement 762-772: GET the selected candidate's cover
letters; catch logs only. -/
def coverLetters_fetchCandidateCoverLetters : Handler :=
  { component := "CoverLetterManagement", funName := "fetchCandidateCoverLetters"
    requests := [⟨.GET, [.base .reactEnvOrLocalhost, .lit "/api/candidates/",
      .arg "selectedCandidate", .lit "/cover-letters"]⟩]
    catches := true, catchActions := [.consoleError], nonOkActions := []
    catchRequests := [], onSuccessInvokes := [] }

/-- CoverLetterManagement 774-784: GET cover-letter stats; catch logs
only. -/
def coverLetters_fetchCoverLetterStats : Handler :=
  { component := "CoverLetterManagement", funName := "fetchCoverLetterStats"
    requests := [⟨.GET, [.base .reactEnvOrLocalhost,
      .lit "/api/cover-letters/stats/overview"]⟩]
    catches := true, catchActions := [.consoleError], nonOkActions := []
    catchRequests := [], onSuccessInvokes := [] }

/-- CoverLetterManagement 786-827: POST the generation; catch logs and
alerts; a false success flag alerts; success alerts, resets the form and
refreshes letters and stats. -/
def coverLetters_generateCoverLetter : Handler :=
  { component := "CoverLetterManagement", funName := "generateCoverLetter"
    requests := [⟨.POST, [.base .reactEnvOrLocalhost,
      .lit "/api/cover-letters/generate"]⟩]
    catches := true, catchActions := [.consoleError, .alertMsg]
    nonOkActions := [.alertMsg]
    catchRequests := []
    onSuccessInvokes := ["fetchCandidateCoverLetters", "fetchCoverLetterStats"] }

/-- CoverLetterManagement 829-862: POST the multi-version generation;
catch logs and alerts; a false success flag alerts; success refreshes
letters and stats. -/
def coverLetters_generateMultipleVersions : Handler :=
  { component := "CoverLetterManagement", funName := "generateMultipleVersions"
    requests := [⟨.POST, [.base .reactEnvOrLocalhost,
      .lit "/api/cover-letters/generate-multiple"]⟩]
    catches := true, catchActions := [.consoleError, .alertMsg]
    nonOkActions := [.alertMsg]
    catchRequests := []
    onSuccessInvokes := ["fetchCandidateCoverLetters", "fetchCoverLetterStats"] }

/-- CoverLetterManagement 864-884: DELETE a cover letter (behind a confirm
dialog); catch logs and alerts; a false success flag alerts; success
refreshes letters and stats. -/
def coverLetters_deleteCoverLetter : Handler :=
  { component := "CoverLetterManagement", funName := "deleteCoverLetter"
    requests := [⟨.DELETE, [.base .reactEnvOrLocalhost,
      .lit "/api/cover-letters/", .arg "coverLetterId"]⟩]
    catches := true, catchActions := [.consoleError, .alertMsg]
    nonOkActions := [.alertMsg]
    catchRequests := []
    onSuccessInvokes := ["fetchCandidateCoverLetters", "fetchCoverLetterStats"] }

/-- CoverLetterManagement 886-906: GET the PDF download; catch logs and
alerts; a non-ok response alerts. -/
def coverLetters_downloadPDF : Handler :=
  { component := "CoverLetterManagement", funName := "downloadPDF"
    requests := [⟨.GET, [.base .reactEnvOrLocalhost,
      .lit "/api/cover-letters/", .arg "coverLetterId", .lit "/download"]⟩]
    catches := true, catchActions := [.consoleError, .alertMsg]
    nonOkActions := [.alertMsg]
    catchRequests := [], onSuccessInvokes := [] }

/-- CoverLetterManagement 908-928: POST the generation test; catch logs
and alerts; a false success flag alerts; success refreshes stats. -/
def coverLetters_testCoverLetterGeneration : Handler :=
  { component := "CoverLetterManagement", funName := "testCoverLetterGeneration"
    requests := [⟨.POST, [.base .reactEnvOrLocalhost,
      .lit "/api/cover-letters/test-generation"]⟩]
    catches := true, catchActions := [.consoleError, .alertMsg]
    nonOkActions := [.alertMsg]
    catchRequests := [], onSuccessInvokes := ["fetchCoverLetterStats"] }

/-- LinkedInAutomation (src/unnamed/part_001) 17-27: GET candidates; catch
logs only; a non-ok response is silently ignored. -/
def linkedIn_fetchCandidates : Handler :=
  { component := "LinkedInAutomation", funName := "fetchCandidates"
    requests := [⟨.GET, [.base .reactEnv, .lit "/api/candidates"]⟩]
    catches := true, catchActions := [.consoleError], nonOkActions := []
    catchRequests := [], onSuccessInvokes := [] }

/-- LinkedInAutomation 29-39: GET campaigns; catch logs only. -/
def linkedIn_fetchCampaigns : Handler :=
  { component := "LinkedInAutomation", funName := "fetchCampaigns"
    requests := [⟨.GET, [.base .reactEnv, .lit "/api/linkedin/campaigns"]⟩]
    catches := true, catchActions := [.consoleError], nonOkActions := []
    catchRequests := [], onSuccessInvokes := [] }

/-- LinkedInAutomation 58-88: POST start-outreach; catch logs and toasts;
a non-ok response toasts; success toasts and refreshes campaigns. -/
def linkedIn_startOutreachCampaign : Handler :=
  { component := "LinkedInAutomation", funName := "startOutreachCampaign"
    requests := [⟨.POST, [.base .reactEnv,
      .lit "/api/linkedin/start-outreach"]⟩]
    catches := true, catchActions := [.consoleError, .toastError]
    nonOkActions := [.toastError]
    catchRequests := [], onSuccessInvokes := ["fetchCampaigns"] }

/-- LinkedInAutomation 90-101: GET a candidate's outreach status; catch
logs only and the function returns null. -/
def linkedIn_getOutreachStatus : Handler :=
  { component := "LinkedInAutomation", funName := "getOutreachStatus"
    requests := [⟨.GET, [.base .reactEnv, .lit "/api/linkedin/outreach-status/",
      .arg "candidateId"]⟩]
    catches := true, catchActions := [.consoleError], nonOkActions := []
    catchRequests := [], onSuccessInvokes := [] }

/-- FeedbackAnalytics (src/unnamed/part_001) 381-394: POST
analyze-performance on mount; catch logs only. -/
def feedback_fetchPerformanceData : Handler :=
  { component := "FeedbackAnalytics", funName := "fetchPerformanceData"
    requests := [⟨.POST, [.base .reactEnv,
      .lit "/api/feedback/analyze-performance"]⟩]
    catches := true, catchActions := [.consoleError], nonOkActions := []
    catchRequests := [], onSuccessInvokes := [] }

/-- FeedbackAnalytics 396-406: GET success patterns; catch logs only. -/
def feedback_fetchSuccessPatterns : Handler :=
  { component := "FeedbackAnalytics", funName := "fetchSuccessPatterns"
    requests := [⟨.GET, [.base .reactEnv,
      .lit "/api/feedback/success-patterns"]⟩]
    catches := true, catchActions := [.consoleError], nonOkActions := []
    catchRequests := [], onSuccessInvokes := [] }

/-- FeedbackAnalytics 413-434: POST analyze-performance from the button;
catch logs and toasts; a non-ok response toasts. -/
def feedback_analyzePerformance : Handler :=
  { component := "FeedbackAnalytics", funName := "analyzePerformance"
    requests := [⟨.POST, [.base .reactEnv,
      .lit "/api/feedback/analyze-performance"]⟩]
    catches := true, catchActions := [.consoleError, .toastError]
    nonOkActions := [.toastError]
    catchRequests := [], onSuccessInvokes := [] }

/-- FeedbackAnalytics 436-460: POST apply-optimizations; catch logs and
toasts; a non-ok response toasts; success toasts and refreshes the two
mount fetches after two seconds. -/
def feedback_applyOptimizations : Handler :=
  { component := "FeedbackAnalytics", funName := "applyOptimizations"
    requests := [⟨.POST, [.base .reactEnv,
      .lit "/api/feedback/apply-optimizations"]⟩]
    catches := true, catchActions := [.consoleError, .toastError]
    nonOkActions := [.toastError]
    catchRequests := []
    onSuccessInvokes := ["fetchPerformanceData", "fetchSuccessPatterns"] }

/-- MassScaleDashboard.js 28-40: GET the mass-scale dashboard; catch logs
only; a non-ok response is silently ignored. -/
def massScale_fetchDashboardData : Handler :=
  { component := "MassScaleDashboard", funName := "fetchDashboardData"
    requests := [⟨.GET, [.base .reactEnv,
      .lit "/api/analytics/mass-scale-dashboard"]⟩]
    catches := true, catchActions := [.consoleError], nonOkActions := []
    catchRequests := [], onSuccessInvokes := [] }

/-- Every request handler of the supplied source, in file order. -/
def allHandlers : List Handler :=
  [jobScraping_fetchScrapingStatus, jobScraping_startManualScraping,
    jobScraping_controlScheduler,
    jobsList_fetchJobs, jobsList_fetchStats, jobsList_searchJobs,
    jobMatching_fetchCandidates, jobMatching_fetchMatchingStats,
    jobMatching_fetchCandidateMatches, jobMatching_processCandidateMatches,
    jobMatching_processAllCandidates,
    automation_fetchSystemStatus, automation_fetchStats,
    automation_startAutonomousSystem, automation_stopAutonomousSystem,
    dashboard_fetchDashboardData, dashboard_fetchTailoringStats,
    dashboard_fetchCoverLetterStats, dashboard_checkSystemHealth,
    appSubmission_fetchApplicationStats, appSubmission_fetchApplicationAnalytics,
    appSubmission_fetchCandidates, appSubmission_fetchJobs,
    appSubmission_fetchRecentApplications, appSubmission_handleAutoSubmit,
    appSubmission_handleBulkSubmit, appSubmission_handleTestSubmission,
    onboarding_uploadResume, onboarding_handleSubmit,
    candidateProfile_fetchCandidateData,
    testAI_fetchCandidates, testAI_testJobMatching, testAI_testCoverLetter,
    testAI_checkSystemHealth,
    resumeTailoring_fetchCandidates, resumeTailoring_fetchJobs,
    resumeTailoring_fetchResumeVersions, resumeTailoring_fetchTailoringStats,
    resumeTailoring_fetchATSAnalysis, resumeTailoring_fetchPerformanceMetrics,
    resumeTailoring_handleTailorResume, resumeTailoring_handleGenerateVariants,
    resumeTailoring_handleTestATSScoring,
    coverLetters_fetchCandidates, coverLetters_fetchRecentJobs,
    coverLetters_fetchCandidateCoverLetters, coverLetters_fetchCoverLetterStats,
    coverLetters_generateCoverLetter, coverLetters_generateMultipleVersions,
    coverLetters_deleteCoverLetter, coverLetters_downloadPDF,
    coverLetters_testCoverLetterGeneration,
    linkedIn_fetchCandidates, linkedIn_fetchCampaigns,
    linkedIn_startOutreachCampaign, linkedIn_getOutreachStatus,
    feedback_fetchPerformanceData, feedback_fetchSuccessPatterns,
    feedback_analyzePerformance, feedback_applyOptimizations,
    massScale_fetchDashboardData]

/-- The requests one invocation of a handler leads to: its own plus those
of the same-component handlers its success path invokes. -/
def invocationRequests (h : Handler) : List Request :=
  h.requests ++
    (allHandlers.filter
        (fun g => g.component == h.component &&
          h.onSuccessInvokes.contains g.funName)).flatMap Handler.requests

/-- The request templates the JobMatching page can send (the requests of
its five handlers). -/
def jobMatchingRequests : List Request :=
  (allHandlers.filter (fun h => h.component == "JobMatching")).flatMap
    Handler.requests

/-- The per-candidate POSTs of the handleBulkSubmit loop
(ApplicationSubmission.js 143-160): one submit-bulk POST for each selected
candidate, whose JSON body carries that candidate's id. -/
def bulkSubmitPosts (selectedCandidates : List String) :
    List (Request × String) :=
  selectedCandidates.map
    (fun cid =>
      (⟨.POST, [.base .viteOrReactOrLocalhost,
        .lit "/api/applications/submit-bulk"]⟩, cid))

/-! ## Polling effects

The two claimed polls are mount effects with empty dependency arrays:
JobScraping.js 90-95 and AutomationOrchestrator.js 45-56.  Each runs its
fetchers once, starts a plain setInterval and returns a cleanup that
clears it. -/

/-- How a repeating timer is created: the source only ever uses a plain
setInterval with a constant period (a recursive setTimeout would be the
drift-correcting alternative; none exists in the source). -/
inductive TimerKind where
  | setIntervalPlain
  | recursiveTimeout
deriving DecidableEq

/-- A mount-effect poll: the handlers run immediately on mount, the
handlers run on every tick, the timer kind, its period in milliseconds,
and whether the effect cleanup clears the timer. -/
structure MountPoll where
  component : String
  runOnMount : List String
  tickInvokes : List String
  timer : TimerKind
  periodMs : Nat
  clearsOnUnmount : Bool
deriving DecidableEq

/-- JobScraping.js 90-95: fetchScrapingStatus on mount, then a 30000 ms
setInterval of fetchScrapingStatus, cleared by the effect cleanup. -/
def jobScrapingPoll : MountPoll :=
  { component := "JobScraping"
    runOnMount := ["fetchScrapingStatus"]
    tickInvokes := ["fetchScrapingStatus"]
    timer := .setIntervalPlain, periodMs := 30000, clearsOnUnmount := true }

/-- AutomationOrchestrator.js 45-56: fetchSystemStatus and fetchStats on
mount, then a 30000 ms setInterval of both, cleared by the effect
cleanup. -/
def automationOrchestratorPoll : MountPoll :=
  { component := "AutomationOrchestrator"
    runOnMount := ["fetchSystemStatus", "fetchStats"]
    tickInvokes := ["fetchSystemStatus", "fetchStats"]
    timer := .setIntervalPlain, periodMs := 30000, clearsOnUnmount := true }

/-- The requests a JobScraping poll tick issues as a function of the
component's in-flight flag (the refreshing state): fetchScrapingStatus
(JobScraping.js 27-40) sets refreshing and issues its GET without ever
reading the flag, so the result does not depend on it. -/
def jobScrapingTickRequests (_refreshing : Bool) : List Request :=
  [⟨.GET, [.base .reactEnv, .lit "/api/scraping/status"]⟩]

/-- The requests an AutomationOrchestrator poll tick issues as a function
of the component's isLoading flag: fetchSystemStatus and fetchStats
(AutomationOrchestrator.js 21-43) read no flag at all before issuing
their GETs. -/
def automationTickRequests (_isLoading : Bool) : List Request :=
  [⟨.GET, [.base .reactEnv, .lit "/api/automation/status"]⟩,
    ⟨.GET, [.base .reactEnv, .lit "/api/automation/stats"]⟩]

/-! ## Client-side input validation

The validation the supplied frontend performs before submitting, in
full. -/

/-- The react-dropzone options of CandidateOnboarding.js 92-102: accepted
MIME types with their extensions, the file-count cap and the size cap. -/
structure DropzoneOptions where
  acceptMimeTypes : List (String × List String)
  maxFiles : Nat
  maxSizeBytes : Nat
deriving DecidableEq

/-- The resume dropzone configuration (CandidateOnboarding.js 92-102). -/
def onboardingDropzone : DropzoneOptions :=
  { acceptMimeTypes :=
      [("application/pdf", [".pdf"]),
        ("application/vnd.openxmlformats-officedocument.wordprocessingml.document",
          [".docx"]),
        ("application/msword", [".doc"]),
        ("text/plain", [".txt"])]
    maxFiles := 1
    maxSizeBytes := 10 * 1024 * 1024 }

/-- The guard of handleTailorResume (src/unnamed/part_000 lines 113-117):
the submission is blocked (an error toast, no request) exactly when one of
the four required inputs is empty, the job description after trimming. -/
def handleTailorResumeBlocked (selectedCandidate selectedResume selectedJob
    jobDescription : String) : Bool :=
  selectedCandidate == "" || selectedResume == "" || selectedJob == "" ||
    jobDescription.trim == ""

/-- The kind of a client-side pre-submission check found in the source:
presence of required fields or selections, or a confirm dialog; no
format, range or uniqueness check exists client-side. -/
inductive GuardKind where
  | requiredFieldsCheck
  | confirmDialog
deriving DecidableEq

/-- One pre-submission guard: the component, the handler, its kind and the
inputs whose JavaScript truthiness it requires. -/
structure SubmitGuard where
  component : String
  handler : String
  kind : GuardKind
  fields : List String
deriving DecidableEq

/-- Every pre-submission check in the supplied source, in file order:
JobScraping and the remaining submit handlers have none beyond these. -/
def submitGuards : List SubmitGuard :=
  [⟨"JobMatching", "fetchCandidateMatches", .requiredFieldsCheck,
      ["candidateId"]⟩,
    ⟨"JobMatching", "processCandidateMatches", .requiredFieldsCheck,
      ["selectedCandidate"]⟩,
    ⟨"ApplicationSubmission", "handleBulkSubmit", .requiredFieldsCheck,
      ["selectedCandidates nonempty"]⟩,
    ⟨"CandidateOnboarding", "nextStep button", .requiredFieldsCheck,
      ["full_name"]⟩,
    ⟨"TestAI", "testJobMatching", .requiredFieldsCheck,
      ["selectedCandidate", "jobDescription"]⟩,
    ⟨"TestAI", "testCoverLetter", .requiredFieldsCheck,
      ["selectedCandidate", "jobDescription", "companyName"]⟩,
    ⟨"ResumeTailoring", "handleTailorResume", .requiredFieldsCheck,
      ["selectedCandidate", "selectedResume", "selectedJob",
        "jobDescription trimmed"]⟩,
    ⟨"ResumeTailoring", "handleGenerateVariants", .requiredFieldsCheck,
      ["selectedCandidate", "selectedResume"]⟩,
    ⟨"CoverLetterManagement", "generateCoverLetter", .requiredFieldsCheck,
      ["candidate_id", "job_description", "company_name"]⟩,
    ⟨"CoverLetterManagement", "generateMultipleVersions", .requiredFieldsCheck,
      ["candidate_id", "job_description", "company_name"]⟩,
    ⟨"CoverLetterManagement", "deleteCoverLetter", .confirmDialog, []⟩,
    ⟨"LinkedInAutomation", "startOutreachCampaign", .requiredFieldsCheck,
      ["selectedCandidate"]⟩]

/-! ## Module-scope bindings and component state

Transcription of every module-scope declaration of the fifteen source
documents, and of the components' state declarations.  No file imports
another file's bindings except the page components themselves (App.js),
and the source contains no createContext, useContext, useReducer, useRef,
redux, zustand, localStorage or sessionStorage usage. -/

/-- The kind of a module-scope binding: an environment-derived string
const, a string const derived from another const, a React component bound
with const, or a React component declared with the function keyword. -/
inductive TopLevelKind where
  | envStringConst
  | derivedStringConst
  | componentConst
  | componentFunction
deriving DecidableEq

/-- One module-scope binding: its document, name, kind, and whether it is
a mutable binding (declared with let or var). -/
structure TopLevelBinding where
  file : String
  name : String
  kind : TopLevelKind
  mutableBinding : Bool
deriving DecidableEq

/-- Every module-scope binding of the fifteen source documents.  All are
declared with const (or, for App, the function keyword); the source has
no module-scope let or var. -/
def topLevelBindings : List TopLevelBinding :=
  [⟨"JobScraping.js", "JobScraping", .componentConst, false⟩,
    ⟨"JobsList.js", "JobsList", .componentConst, false⟩,
    ⟨"JobMatching.js", "BACKEND_URL", .envStringConst, false⟩,
    ⟨"JobMatching.js", "API", .derivedStringConst, false⟩,
    ⟨"JobMatching.js", "PriorityBadge", .componentConst, false⟩,
    ⟨"JobMatching.js", "MatchScoreBar", .componentConst, false⟩,
    ⟨"JobMatching.js", "JobCard", .componentConst, false⟩,
    ⟨"JobMatching.js", "StatsCard", .componentConst, false⟩,
    ⟨"JobMatching.js", "JobMatching", .componentConst, false⟩,
    ⟨"AutomationOrchestrator.js", "AutomationOrchestrator", .componentConst,
      false⟩,
    ⟨"AutomationOrchestrator.js second document", "BACKEND_URL",
      .envStringConst, false⟩,
    ⟨"AutomationOrchestrator.js second document", "API", .derivedStringConst,
      false⟩,
    ⟨"AutomationOrchestrator.js second document", "StatCard", .componentConst,
      false⟩,
    ⟨"AutomationOrchestrator.js second document", "ActivityItem",
      .componentConst, false⟩,
    ⟨"AutomationOrchestrator.js second document", "Dashboard", .componentConst,
      false⟩,
    ⟨"ApplicationSubmission.js", "ApplicationSubmission", .componentConst,
      false⟩,
    ⟨"CandidateOnboarding.js", "BACKEND_URL", .envStringConst, false⟩,
    ⟨"CandidateOnboarding.js", "API", .derivedStringConst, false⟩,
    ⟨"CandidateOnboarding.js", "CandidateOnboarding", .componentConst, false⟩,
    ⟨"MassScaleDashboard.js", "MassScaleDashboard", .componentConst, false⟩,
    ⟨"Navigation.js", "Navigation", .componentConst, false⟩,
    ⟨"TestAI.js", "BACKEND_URL", .envStringConst, false⟩,
    ⟨"TestAI.js", "API", .derivedStringConst, false⟩,
    ⟨"TestAI.js", "TestCard", .componentConst, false⟩,
    ⟨"TestAI.js", "TestAI", .componentConst, false⟩,
    ⟨"App.js", "App", .componentFunction, false⟩,
    ⟨"part_000 first document", "ResumeTailoring", .componentConst, false⟩,
    ⟨"part_000 second document", "CoverLetterManagement", .componentConst,
      false⟩,
    ⟨"part_000 third document", "Navigation", .componentConst, false⟩,
    ⟨"part_001 first document", "LinkedInAutomation", .componentConst, false⟩,
    ⟨"part_001 second document", "FeedbackAnalytics", .componentConst, false⟩,
    ⟨"part_002", "BACKEND_URL", .envStringConst, false⟩,
    ⟨"part_002", "API", .derivedStringConst, false⟩,
    ⟨"part_002", "CandidateProfile", .componentConst, false⟩]

/-- The state declarations of the codebase, grouped by the component that
declares and renders them: every entry of every group is a useState call
inside that component's body (there is no other state hook in the
source). -/
def componentUseStateHooks : List (String × List String) :=
  [("JobScraping", ["scrapingStatus", "loading", "manualScraping",
      "refreshing", "manualForm"]),
    ("JobsList", ["jobs", "loading", "stats", "searchQuery", "filters",
      "pagination"]),
    ("JobMatching", ["candidates", "selectedCandidate", "matches",
      "loading", "processingMatches", "processingAll", "stats", "filter",
      "searchTerm"]),
    ("AutomationOrchestrator", ["systemStatus", "stats", "isLoading"]),
    ("Dashboard", ["stats", "loading", "systemStatus"]),
    ("ApplicationSubmission", ["applications", "stats", "analytics",
      "loading", "submissionStatus", "selectedCandidates", "candidates",
      "jobs", "submissionConfig"]),
    ("CandidateOnboarding", ["currentStep", "loading", "uploadedFile",
      "resumeAnalysis", "formData"]),
    ("MassScaleDashboard", ["dashboardData", "isLoading",
      "selectedTimeRange"]),
    ("TestAI", ["candidates", "selectedCandidate", "jobDescription",
      "companyName", "loading", "results", "errors", "matchingResult",
      "matchingLoading"]),
    ("ResumeTailoring", ["candidates", "jobs", "selectedCandidate",
      "selectedResume", "selectedJob", "jobDescription", "strategy",
      "optimizationLevel", "useGeneticAlgorithm", "resumeVersions",
      "selectedVersion", "atsAnalysis", "performanceMetrics",
      "tailoringStats", "isLoading", "activeTab"]),
    ("CoverLetterManagement", ["candidates", "coverLetters",
      "selectedCandidate", "selectedJob", "loading", "stats", "activeTab",
      "jobs", "filterTone", "searchTerm", "formData"]),
    ("LinkedInAutomation", ["candidates", "campaigns", "selectedCandidate",
      "isLoading", "campaignStats"]),
    ("FeedbackAnalytics", ["performanceData", "recommendations",
      "successPatterns", "isAnalyzing", "isOptimizing"]),
    ("CandidateProfile", ["candidate", "resumes", "loading", "error"])]

/-- The shared-state libraries or browser stores the source uses: none (no
redux, zustand, recoil, createContext, useContext, localStorage or
sessionStorage occurs in any document). -/
def sharedStoreMechanisms : List String := []

/-- Invariant carried by the pagination state across button presses:
non-negative skip, skip below a positive total, non-negative limit, total
frozen at t. -/
def PagInv (t : Int) (p : Pagination) : Prop :=
  0 ≤ p.skip ∧ (0 < p.total → p.skip < p.total) ∧ 0 ≤ p.limit ∧ p.total = t

/-! ## Theorems -/

/-- One pagination button press preserves the invariant. -/
theorem pagInv_step (t : Int) (op : PageOp) (p : Pagination)
    (h : PagInv t p) : PagInv t (applyPageOp p op) := by
  obtain ⟨h0, hlt, hl, ht⟩ := h
  cases op with
  | next =>
    unfold applyPageOp Pagination.nextPage
    by_cases hc : p.skip + p.limit < p.total
    · rw [if_pos hc]
      refine ⟨?_, fun hpos => ?_, hl, ht⟩
      · show (0 : Int) ≤ p.skip + p.limit
        omega
      · show p.skip + p.limit < p.total
        exact hc
    · rw [if_neg hc]
      exact ⟨h0, hlt, hl, ht⟩
  | prev =>
    unfold applyPageOp Pagination.prevPage
    refine ⟨?_, fun hpos => ?_, hl, ht⟩
    · show (0 : Int) ≤ max 0 (p.skip - p.limit)
      omega
    · have hpos' : 0 < p.total := hpos
      have := hlt hpos'
      show max 0 (p.skip - p.limit) < p.total
      omega

/-- A sequence of pagination button presses preserves the invariant. -/
theorem pagInv_applyPageOps (t : Int) (ops : List PageOp) (p : Pagination)
    (h : PagInv t p) : PagInv t (applyPageOps p ops) := by
  induction ops generalizing p with
  | nil => exact h
  | cons op rest ih =>
    have : applyPageOps p (op :: rest) = applyPageOps (applyPageOp p op) rest := rfl
    rw [this]
    exact ih _ (pagInv_step t op p h)

/-- C8: starting from skip = 0 with limit 20, after any sequence of
nextPage/prevPage presses the JobsList pagination offset stays at least 0,
and stays below the total whenever the total is positive (nextPage moves
only when skip + limit is below the total, prevPage clamps at 0). -/
theorem jobsList_pagination_skip_in_range (ops : List PageOp) (total : Int) :
    0 ≤ (applyPageOps (initialPagination total) ops).skip ∧
      (0 < total → (applyPageOps (initialPagination total) ops).skip < total) := by
  have hinit : PagInv total (initialPagination total) :=
    ⟨le_refl 0, fun hpos => hpos, by norm_num [initialPagination], rfl⟩
  obtain ⟨h0, hlt, _, ht⟩ := pagInv_applyPageOps total ops _ hinit
  refine ⟨h0, fun hpos => ?_⟩
  have hpos' : 0 < (applyPageOps (initialPagination total) ops).total := by
    rw [ht]; exact hpos
  have hfin := hlt hpos'
  rwa [ht] at hfin

/-- Witness for C8 at the concrete press sequence next, next, prev with
total 50: the offset stays in range. -/
theorem jobsList_pagination_skip_in_range_witness :
    0 ≤ (applyPageOps (initialPagination 50)
        [PageOp.next, PageOp.next, PageOp.prev]).skip ∧
      (applyPageOps (initialPagination 50)
        [PageOp.next, PageOp.next, PageOp.prev]).skip < 50 :=
  ⟨(jobsList_pagination_skip_in_range [PageOp.next, PageOp.next, PageOp.prev] 50).1,
    (jobsList_pagination_skip_in_range [PageOp.next, PageOp.next, PageOp.prev] 50).2
      (by decide)⟩

/-- An optional field includes the needle exactly when the field is
present and its lowering includes the needle. -/
theorem optFieldIncludes_iff (o : Option String) (l : String) :
    optFieldIncludes o l = true ↔
      ∃ s, o = some s ∧ jsIncludes (jsToLower s) l = true := by
  cases o <;> simp [optFieldIncludes]

/-- The three-field search disjunction of the filter body coincides with
the claim-side case-insensitive containment on the match's job_data. -/
theorem fieldSearchBridge (jd : Option JobData) (s : String) :
    ((optFieldIncludes (jd.getD emptyJobData).title (jsToLower s) = true ∨
        optFieldIncludes (jd.getD emptyJobData).company (jsToLower s) = true) ∨
      optFieldIncludes (jd.getD emptyJobData).location (jsToLower s) = true) ↔
      (ContainsCI (jd.bind JobData.title) s ∨
        ContainsCI (jd.bind JobData.company) s ∨
        ContainsCI (jd.bind JobData.location) s) := by
  cases jd <;>
    simp [ContainsCI, emptyJobData, optFieldIncludes_iff, or_assoc]

/-- The filter predicate holds exactly when the claim-side selection
predicate holds. -/
theorem matchPassesFilter_iff (f s : String) (m : JobMatch) :
    matchPassesFilter f s m = true ↔ MatchSelected f s m := by
  unfold matchPassesFilter MatchSelected
  by_cases hf : f = "all" <;> by_cases hp : m.priority = f <;>
    by_cases hs : s = "" <;>
      simp [hf, hp, hs] <;>
        exact fieldSearchBridge m.job_data s

/-- C9: filteredMatches contains exactly the fetched matches whose
priority passes the dropdown filter and whose job_data title, company or
location contains a non-empty search term case-insensitively, and it is a
sublist of the fetched list (the original order is preserved). -/
theorem jobMatching_filteredMatches_spec (f s : String) (ms : List JobMatch) :
    (∀ m, m ∈ filteredMatches f s ms ↔ m ∈ ms ∧ MatchSelected f s m) ∧
      List.Sublist (filteredMatches f s ms) ms := by
  constructor
  · intro m
    rw [filteredMatches, List.mem_filter, matchPassesFilter_iff]
  · exact List.filter_sublist ms

/-- Witness for C9 at a concrete match list: the high-priority match whose
title contains the term survives the filter, the low-priority one does
not. -/
theorem jobMatching_filteredMatches_spec_witness :
    filteredMatches "high" "dev"
        [⟨"high", some ⟨some "Senior Developer", some "Acme", some "Remote"⟩⟩,
          ⟨"low", some ⟨some "Designer", some "Acme", some "Remote"⟩⟩] =
      [⟨"high", some ⟨some "Senior Developer", some "Acme", some "Remote"⟩⟩] ∧
      (⟨"high", some ⟨some "Senior Developer", some "Acme", some "Remote"⟩⟩ ∈
          filteredMatches "high" "dev"
            [⟨"high", some ⟨some "Senior Developer", some "Acme", some "Remote"⟩⟩,
              ⟨"low", some ⟨some "Designer", some "Acme", some "Remote"⟩⟩] ↔
        (⟨"high", some ⟨some "Senior Developer", some "Acme", some "Remote"⟩⟩ ∈
            ([⟨"high", some ⟨some "Senior Developer", some "Acme", some "Remote"⟩⟩,
              ⟨"low", some ⟨some "Designer", some "Acme", some "Remote"⟩⟩] :
              List JobMatch) ∧
          MatchSelected "high" "dev"
            ⟨"high", some ⟨some "Senior Developer", some "Acme", some "Remote"⟩⟩)) :=
  ⟨by decide,
    (jobMatching_filteredMatches_spec "high" "dev"
        [⟨"high", some ⟨some "Senior Developer", some "Acme", some "Remote"⟩⟩,
          ⟨"low", some ⟨some "Designer", some "Acme", some "Remote"⟩⟩]).1 _⟩

/-- C10: formatNumber prints num divided by one million rounded to one
decimal followed by M for num at least one million, num divided by one
thousand rounded to one decimal followed by K for num between one thousand
and one million, and the plain decimal string otherwise; the printed
tenths count is within half a tenth of the exact quotient. -/
theorem automation_formatNumber_spec (num : Nat) :
    (1000000 ≤ num → FormatsAsMillions num) ∧
      (1000 ≤ num → num < 1000000 → FormatsAsThousands num) ∧
      (num < 1000 → formatNumber num = toString num) := by
  refine ⟨fun h => ?_, fun h1 h2 => ?_, fun h => ?_⟩
  · refine ⟨?_, ?_, ?_⟩
    · unfold formatNumber toFixedOne
      rw [if_pos (show num ≥ 1000000 from h)]
    · simp only [nearestTenths]; omega
    · simp only [nearestTenths]; omega
  · refine ⟨?_, ?_, ?_⟩
    · unfold formatNumber toFixedOne
      rw [if_neg (show ¬ num ≥ 1000000 by omega),
        if_pos (show num ≥ 1000 from h1)]
    · simp only [nearestTenths]; omega
    · simp only [nearestTenths]; omega
  · unfold formatNumber
    rw [if_neg (show ¬ num ≥ 1000000 by omega),
      if_neg (show ¬ num ≥ 1000 by omega)]

/-- Witness for C10 at 2500000, 1500 and 999, one per branch. -/
theorem automation_formatNumber_spec_witness :
    (1000000 ≤ 2500000 ∧ FormatsAsMillions 2500000) ∧
      (1000 ≤ 1500 ∧ 1500 < 1000000 ∧ FormatsAsThousands 1500) ∧
      (999 < 1000 ∧ formatNumber 999 = toString 999) :=
  ⟨⟨by decide, (automation_formatNumber_spec 2500000).1 (by decide)⟩,
    ⟨by decide, by decide,
      (automation_formatNumber_spec 1500).2.1 (by decide) (by decide)⟩,
    ⟨by decide, (automation_formatNumber_spec 999).2.2 (by decide)⟩⟩

/-- C3: the JobScraping status poll and the AutomationOrchestrator
status/stats poll are plain setInterval timers of exactly 30000 ms,
started in the mount effect (which also runs the fetchers once) and
cleared by the effect cleanup; the tick request lists do not depend on the
in-flight flags, so nothing stops a new tick from firing while a previous
request is still pending. -/
theorem polling_thirty_second_plain_interval :
    jobScrapingPoll.periodMs = 30000 ∧
      jobScrapingPoll.timer = TimerKind.setIntervalPlain ∧
      jobScrapingPoll.clearsOnUnmount = true ∧
      jobScrapingPoll.runOnMount = ["fetchScrapingStatus"] ∧
      jobScrapingPoll.tickInvokes = ["fetchScrapingStatus"] ∧
      automationOrchestratorPoll.periodMs = 30000 ∧
      automationOrchestratorPoll.timer = TimerKind.setIntervalPlain ∧
      automationOrchestratorPoll.clearsOnUnmount = true ∧
      automationOrchestratorPoll.runOnMount = ["fetchSystemStatus", "fetchStats"] ∧
      automationOrchestratorPoll.tickInvokes = ["fetchSystemStatus", "fetchStats"] ∧
      (∀ refreshing, jobScrapingTickRequests refreshing =
        jobScrapingTickRequests false) ∧
      jobScrapingTickRequests false ≠ [] ∧
      (∀ isLoading, automationTickRequests isLoading =
        automationTickRequests false) ∧
      automationTickRequests false ≠ [] := by
  decide

/-- C1 counterexample: fetchMatchingStats of JobMatching (one of the very
handlers the claim cites) catches and logs its failures but surfaces
nothing to the user: its catch block has no toast and no alert. -/
theorem error_surfacing_counterexample :
    jobMatching_fetchMatchingStats ∈ allHandlers ∧
      jobMatching_fetchMatchingStats.catches = true ∧
      logsToConsole jobMatching_fetchMatchingStats = true ∧
      surfacesToUser jobMatching_fetchMatchingStats = false := by
  decide

/-- C1 amended: every request handler catches its network failures and
logs them to the console, but only part of them surface the failure via a
toast or alert; the handlers that stay silent towards the user are exactly
the background and status fetchers listed. -/
theorem error_handling_caught_and_logged :
    allHandlers.all (fun h => h.catches && logsToConsole h) = true ∧
      (allHandlers.filter (fun h => !(surfacesToUser h))).map
          (fun h => h.component ++ "." ++ h.funName) =
        ["JobScraping.fetchScrapingStatus",
          "JobsList.fetchJobs", "JobsList.fetchStats", "JobsList.searchJobs",
          "JobMatching.fetchMatchingStats",
          "AutomationOrchestrator.fetchSystemStatus",
          "AutomationOrchestrator.fetchStats",
          "Dashboard.fetchDashboardData.tailoringStats",
          "Dashboard.fetchDashboardData.coverLetterStats",
          "Dashboard.checkSystemHealth",
          "ApplicationSubmission.fetchApplicationStats",
          "ApplicationSubmission.fetchApplicationAnalytics",
          "ApplicationSubmission.fetchCandidates",
          "ApplicationSubmission.fetchJobs",
          "ApplicationSubmission.fetchRecentApplications",
          "ResumeTailoring.fetchTailoringStats",
          "CoverLetterManagement.fetchCandidates",
          "CoverLetterManagement.fetchRecentJobs",
          "CoverLetterManagement.fetchCandidateCoverLetters",
          "CoverLetterManagement.fetchCoverLetterStats",
          "LinkedInAutomation.fetchCandidates",
          "LinkedInAutomation.fetchCampaigns",
          "LinkedInAutomation.getOutreachStatus",
          "FeedbackAnalytics.fetchPerformanceData",
          "FeedbackAnalytics.fetchSuccessPatterns",
          "MassScaleDashboard.fetchDashboardData"] := by
  decide

/-- C2 counterexample: among the request templates the JobMatching page
can send there is the GET to api/candidates/id/matches, but no POST with
that URL; its two POSTs target process-matches and matching/process-all. -/
theorem jobMatching_post_matches_counterexample :
    (⟨Method.GET, apiConst ++ [.lit "/candidates/", .arg "candidateId",
        .lit "/matches"]⟩ : Request) ∈ jobMatchingRequests ∧
      (⟨Method.POST, apiConst ++ [.lit "/candidates/", .arg "candidateId",
        .lit "/matches"]⟩ : Request) ∉ jobMatchingRequests ∧
      (jobMatchingRequests.filter
            (fun r => r.method == Method.POST)).map Request.url =
        [apiConst ++ [.lit "/candidates/", .arg "selectedCandidate",
            .lit "/process-matches"],
          apiConst ++ [.lit "/matching/process-all"]] := by
  decide

/-- C2 amended: the JobMatching page issues a GET to
api/candidates/id/matches, and its per-candidate POST goes to
api/candidates/id/process-matches (with a further POST to
api/matching/process-all). -/
theorem jobMatching_get_matches_post_process_matches :
    (⟨Method.GET, apiConst ++ [.lit "/candidates/", .arg "candidateId",
        .lit "/matches"]⟩ : Request) ∈ jobMatchingRequests ∧
      (⟨Method.POST, apiConst ++ [.lit "/candidates/",
        .arg "selectedCandidate", .lit "/process-matches"]⟩ : Request) ∈
        jobMatchingRequests ∧
      (⟨Method.POST, apiConst ++ [.lit "/matching/process-all"]⟩ : Request) ∈
        jobMatchingRequests := by
  decide

/-- C4 counterexample: the supplied frontend does enforce client-side
preconditions: handleTailorResume blocks the submission on any empty
required input, and the resume dropzone restricts file type, count and
size (one file, 10485760 bytes, four accepted MIME types). -/
theorem client_validation_counterexample :
    handleTailorResumeBlocked "" "" "" "" = true ∧
      onboardingDropzone.maxFiles = 1 ∧
      onboardingDropzone.maxSizeBytes = 10485760 ∧
      onboardingDropzone.acceptMimeTypes.length = 4 ∧
      (⟨"ResumeTailoring", "handleTailorResume", .requiredFieldsCheck,
        ["selectedCandidate", "selectedResume", "selectedJob",
          "jobDescription trimmed"]⟩ : SubmitGuard) ∈ submitGuards := by
  decide

/-- C4 amended: the client-side validation that exists is presence-style
only: handleTailorResume blocks exactly when a required input is empty
(after trimming the job description), every pre-submission guard in the
source is a required-field/selection check or a confirm dialog, and the
resume dropzone restricts uploads to one file of at most 10 MB in four
document MIME types; no format or range validation exists client-side. -/
theorem client_validation_presence_only :
    (∀ a b c d : String, handleTailorResumeBlocked a b c d = true ↔
        (a = "" ∨ b = "" ∨ c = "" ∨ d.trim = "")) ∧
      submitGuards.all (fun g => g.kind == GuardKind.requiredFieldsCheck ||
        g.kind == GuardKind.confirmDialog) = true ∧
      onboardingDropzone.maxFiles = 1 ∧
      onboardingDropzone.maxSizeBytes = 10 * 1024 * 1024 ∧
      onboardingDropzone.acceptMimeTypes.map Prod.fst =
        ["application/pdf",
          "application/vnd.openxmlformats-officedocument.wordprocessingml.document",
          "application/msword", "text/plain"] := by
  refine ⟨fun a b c d => ?_, by decide, by decide, by decide, by decide⟩
  simp [handleTailorResumeBlocked, Bool.or_eq_true, or_assoc]

/-- C5: every request template of every handler (and each per-candidate
bulk POST) is the component backend base expression immediately followed
by literal text beginning with the path /api/; rendering one such template
under a configured backend shows the base-plus-path form concretely. -/
theorem all_requests_target_backend_api :
    allHandlers.all
        (fun h => (h.requests ++ h.catchRequests).all requestTargetsApi) = true ∧
      (bulkSubmitPosts ["c1"]).all (fun rc => requestTargetsApi rc.1) = true ∧
      renderUrl ⟨some "https://backend.example", none⟩ (fun _ => "")
          [.base .reactEnv, .lit "/api/scraping/status"] =
        "https://backend.example/api/scraping/status" := by
  decide

/-- C6: every handler wraps its requests in try/catch (a failure is
non-fatal to the page), no catch block issues any request (a caught
failure never re-issues the failed request, so there is no retry and no
backoff), one invocation issues pairwise distinct request templates, and
the bulk-submission loop issues one submit-bulk POST per distinct selected
candidate. -/
theorem no_retry_single_attempt :
    allHandlers.all
        (fun h => h.catches && h.catchRequests.isEmpty &&
          allDistinct (invocationRequests h)) = true ∧
      ∀ cids : List String, cids.Nodup → (bulkSubmitPosts cids).Nodup := by
  refine ⟨by decide, fun cids h => ?_⟩
  exact h.map (fun a b hab => congrArg Prod.snd hab)

/-- Witness for C6 at two distinct selected candidates: their bulk POSTs
are distinct requests. -/
theorem no_retry_single_attempt_witness :
    List.Nodup ["cand-a", "cand-b"] ∧
      (bulkSubmitPosts ["cand-a", "cand-b"]).Nodup :=
  ⟨by decide, no_retry_single_attempt.2 ["cand-a", "cand-b"] (by decide)⟩

/-- C7: all mutable client-side state is component-local: no module-scope
binding is declared with let or var, the only non-component module-scope
bindings are the per-file BACKEND_URL and API string consts, no shared
store mechanism occurs in the source, and the state declarations group
under pairwise distinct components, each declared with useState inside the
component that renders it. -/
theorem component_local_state_only :
    topLevelBindings.all (fun b => !b.mutableBinding) = true ∧
      (topLevelBindings.filter
            (fun b => b.kind == TopLevelKind.envStringConst ||
              b.kind == TopLevelKind.derivedStringConst)).map
          TopLevelBinding.name =
        ["BACKEND_URL", "API", "BACKEND_URL", "API", "BACKEND_URL", "API",
          "BACKEND_URL", "API", "BACKEND_URL", "API"] ∧
      sharedStoreMechanisms = [] ∧
      (componentUseStateHooks.map Prod.fst).Nodup ∧
      componentUseStateHooks.length = 14 := by
  decide

end SpecModel
